import Mathlib

/-!
# Verification of `audiomass-server.py`

Shallow embedding of the AudioMass HTTP server script
(`src/public/audiomass/audiomass-server.py`) and proofs of its specified
properties.

Python strings are modelled as lists of byte values (`List Nat`, each
element `< 256`); `urllib.parse.quote(s, safe='')` and percent-decoding
(`urllib.parse.unquote_to_bytes`) are modelled byte-for-byte after the
CPython implementation.  The inherited static-file handler
(`http.server.SimpleHTTPRequestHandler`), which lives in the Python
standard library rather than in this repository, is modelled as an
abstract function parameter `base : String → List Nat → HttpResp`
mapping a method and a raw request path to a response; the script's own
logic is embedded faithfully on top of it.
-/

/-- Byte values of an ASCII string (`Char.toNat` of each character);
for ASCII text this coincides with the UTF-8 bytes a Python `str`
is encoded to by `urllib.parse.quote`. -/
def asciiBytes (s : String) : List Nat :=
  s.data.map Char.toNat

/-- CPython's `_ALWAYS_SAFE` set restricted by `safe=''`: ASCII letters,
digits, and `_ . - ~` are kept verbatim by `urllib.parse.quote`;
every other byte is percent-escaped. -/
def isSafeByte (b : Nat) : Bool :=
  (48 ≤ b && b ≤ 57) || (65 ≤ b && b ≤ 90) || (97 ≤ b && b ≤ 122)
    || b == 45 || b == 46 || b == 95 || b == 126

/-- Uppercase hexadecimal digit for a value `< 16`, as a byte
(`'0'..'9'` are 48..57, `'A'..'F'` are 65..70). -/
def hexUpper (n : Nat) : Nat :=
  if n < 10 then 48 + n else 55 + n

/-- `urllib.parse.quote(s, safe='')` on the UTF-8 bytes of `s`:
each safe byte is copied, each other byte `b` becomes
`%` followed by the two uppercase hex digits of `b`. -/
def quoteBytes : List Nat → List Nat
  | [] => []
  | b :: rest =>
      (if isSafeByte b then [b]
       else [37, hexUpper (b / 16), hexUpper (b % 16)]) ++ quoteBytes rest

/-- Value of a hexadecimal digit byte, upper or lower case
(CPython's `_hexdig` covers both cases); `none` for non-hex bytes. -/
def hexVal (b : Nat) : Option Nat :=
  if 48 ≤ b ∧ b ≤ 57 then some (b - 48)
  else if 65 ≤ b ∧ b ≤ 70 then some (b - 55)
  else if 97 ≤ b ∧ b ≤ 102 then some (b - 87)
  else none

/-- Percent-decoding, after CPython's `urllib.parse.unquote_to_bytes`:
a `%` followed by exactly two hex digits decodes to the corresponding
byte; a `%` not followed by two hex digits is kept literally. -/
def unquoteBytes : List Nat → List Nat
  | [] => []
  | b :: rest =>
      if b = 37 then
        match rest with
        | h :: l :: rest2 =>
            match hexVal h, hexVal l with
            | some hv, some lv => (16 * hv + lv) :: unquoteBytes rest2
            | _, _ => 37 :: unquoteBytes (h :: l :: rest2)
        | [x] => 37 :: unquoteBytes [x]
        | [] => [37]
      else b :: unquoteBytes rest
termination_by l => l.length
decreasing_by all_goals simp <;> omega

/-- An HTTP response as observed by the client: either the script's own
redirect (a status code and a `Location` header, no body — the handler
sends the status line, the header, and `end_headers()` only), or whatever
the inherited static-file handler produces (a status and a body). -/
inductive HttpResp where
  | redirect (status : Nat) (location : List Nat)
  | serve (status : Nat) (body : List Nat)
  deriving DecidableEq

/-- The raw request path `"/"` (byte 47); `self.path` in the handler is
the raw request target, query string included, so a request to
`"/?x=1"` has a different path from this one. -/
def rootPath : List Nat := [47]

/-- The literal prefix `"/index.html?url="` of the `Location` header. -/
def locationPrefix : List Nat := asciiBytes "/index.html?url="

/-- `AudioMassHandler.do_GET` (lines 16–24 of the script): if `args.url`
is truthy (present and non-empty — Python's `if args.url and ...`) and
`self.path == '/'`, send a 302 with
`Location: /index.html?url=<quote(args.url, safe='')>` and no body;
otherwise delegate to `SimpleHTTPRequestHandler.do_GET`, modelled by the
abstract `base` function applied to the same path. -/
def do_GET (base : List Nat → HttpResp) (args_url : Option (List Nat))
    (path : List Nat) : HttpResp :=
  match args_url with
  | some u =>
      if u ≠ [] ∧ path = rootPath then
        HttpResp.redirect 302 (locationPrefix ++ quoteBytes u)
      else base path
  | none => base path

/-- Request dispatch of `AudioMassHandler`: the class overrides only
`do_GET`, so a GET request runs the override (whose fall-through is the
base class's GET handling), and every other method is handled entirely
by the inherited `SimpleHTTPRequestHandler` behaviour `base`. -/
def handle (base : String → List Nat → HttpResp)
    (args_url : Option (List Nat)) (method : String) (path : List Nat) :
    HttpResp :=
  if method = "GET" then do_GET (base "GET") args_url path
  else base method path

/-- The parsed command-line configuration (lines 8–13): `--port` is an
integer defaulting to 5055, `--url` an optional string. -/
structure Args where
  port : Int
  url : Option (List Nat)
  deriving DecidableEq

/-- `argparse` result for a given command line: the port option if
supplied, else the default 5055; the url option verbatim. -/
def parseArgs (portOpt : Option Int) (urlOpt : Option (List Nat)) : Args :=
  { port := portOpt.getD 5055, url := urlOpt }

/-- Outcome of running the script: either the process exited with a code
after writing an error message to the console (an uncaught `OSError`
from `TCPServer` binding prints a traceback and exits with status 1),
or the server is up, bound to the given port with the given preload url,
and serving requests forever. -/
inductive ProcOutcome where
  | exited (code : Nat) (errMsg : List Nat)
  | serving (port : Int) (url : Option (List Nat))
  deriving DecidableEq

/-- The script's top level (lines 7–30): parse the arguments, then
`socketserver.TCPServer(("", PORT), AudioMassHandler)` attempts to bind
the port.  A bind failure raises an uncaught exception — the process
reports the error and terminates with exit status 1 before
`serve_forever()` is ever reached; on success the script serves forever
on the configured port. -/
def runScript (bind : Int → Except (List Nat) Unit)
    (portOpt : Option Int) (urlOpt : Option (List Nat)) : ProcOutcome :=
  let args := parseArgs portOpt urlOpt
  match bind args.port with
  | .error msg => .exited 1 msg
  | .ok _ => .serving args.port args.url

/-! ## Helper lemmas about the percent-encoding -/

theorem isSafeByte_ne_37 {b : Nat} (h : isSafeByte b = true) : b ≠ 37 := by
  intro heq
  subst heq
  simp [isSafeByte] at h

theorem hexVal_hexUpper (n : Nat) (h : n < 16) :
    hexVal (hexUpper n) = some n := by
  interval_cases n <;> decide

theorem unquote_cons_safe (b : Nat) (h : b ≠ 37) (t : List Nat) :
    unquoteBytes (b :: t) = b :: unquoteBytes t := by
  rw [unquoteBytes.eq_def]
  simp [h]

theorem unquote_cons_escape (h l : Nat) (t : List Nat) {hv lv : Nat}
    (hh : hexVal h = some hv) (hl : hexVal l = some lv) :
    unquoteBytes (37 :: h :: l :: t) = (16 * hv + lv) :: unquoteBytes t := by
  rw [unquoteBytes.eq_2, if_pos rfl]
  simp [hh, hl]

theorem unquote_quote (u : List Nat) (hb : ∀ b ∈ u, b < 256) :
    unquoteBytes (quoteBytes u) = u := by
  induction u with
  | nil => simp [quoteBytes, unquoteBytes]
  | cons b rest ih =>
    have h1 : b < 256 := hb b (List.mem_cons_self b rest)
    have ih2 := ih fun x hx => hb x (List.mem_cons_of_mem b hx)
    by_cases hs : isSafeByte b
    · rw [quoteBytes, if_pos hs, List.singleton_append,
        unquote_cons_safe b (isSafeByte_ne_37 hs), ih2]
    · rw [quoteBytes, if_neg hs, List.cons_append, List.cons_append,
        List.cons_append, List.nil_append,
        unquote_cons_escape _ _ _ (hexVal_hexUpper _ (by omega))
          (hexVal_hexUpper _ (by omega)), ih2]
      congr 1
      omega

/-! ## Claims -/

/-- C1: for every non-empty configured preload url `u`, a GET request
whose raw path is exactly `/` receives a 302 response whose `Location`
header is `/index.html?url=` followed by `quote(u, safe='')` — every
byte outside the unreserved set escaped as `%XX` — with no body
(the `redirect` constructor carries no body), whatever the static
handler `base` would do; and on `https://example.com/a.mp3` the
encoding is exactly `https%3A%2F%2Fexample.com%2Fa.mp3`. -/
theorem root_redirect_location_encoding
    (base : String → List Nat → HttpResp) (u : List Nat) (hu : u ≠ []) :
    handle base (some u) "GET" rootPath
      = HttpResp.redirect 302 (locationPrefix ++ quoteBytes u)
    ∧ quoteBytes (asciiBytes "https://example.com/a.mp3")
      = asciiBytes "https%3A%2F%2Fexample.com%2Fa.mp3" := by
  constructor
  · simp [handle, do_GET, hu]
  · decide

/-- Witness for C1 at the concrete preload url of the spec scenario. -/
theorem root_redirect_location_encoding_witness :
    asciiBytes "https://example.com/a.mp3" ≠ []
    ∧ handle (fun _ _ => HttpResp.serve 404 [])
        (some (asciiBytes "https://example.com/a.mp3")) "GET" rootPath
      = HttpResp.redirect 302
          (asciiBytes "/index.html?url=https%3A%2F%2Fexample.com%2Fa.mp3") := by
  refine ⟨by decide, ?_⟩
  rw [(root_redirect_location_encoding (fun _ _ => HttpResp.serve 404 [])
    (asciiBytes "https://example.com/a.mp3") (by decide)).1]
  decide

/-- C2: for every preload url `u` that triggers the root redirect,
percent-decoding the part of the `Location` header after
`/index.html?url=` recovers `u` exactly (round-trip law);
`u` ranges over byte strings, each byte `< 256`. -/
theorem location_roundtrip (base : String → List Nat → HttpResp)
    (u : List Nat) (hu : u ≠ []) (hb : ∀ b ∈ u, b < 256) :
    handle base (some u) "GET" rootPath
      = HttpResp.redirect 302 (locationPrefix ++ quoteBytes u)
    ∧ unquoteBytes
        ((locationPrefix ++ quoteBytes u).drop locationPrefix.length) = u := by
  refine ⟨by simp [handle, do_GET, hu], ?_⟩
  rw [List.drop_left]
  exact unquote_quote u hb

/-- Witness for C2 at the concrete preload url of the spec scenario. -/
theorem location_roundtrip_witness :
    asciiBytes "https://example.com/a.mp3" ≠ []
    ∧ (∀ b ∈ asciiBytes "https://example.com/a.mp3", b < 256)
    ∧ unquoteBytes
        ((locationPrefix ++ quoteBytes (asciiBytes "https://example.com/a.mp3")).drop
          locationPrefix.length)
      = asciiBytes "https://example.com/a.mp3" :=
  ⟨by decide, by decide,
    (location_roundtrip (fun _ _ => HttpResp.serve 404 [])
      (asciiBytes "https://example.com/a.mp3") (by decide) (by decide)).2⟩

/-- C3 counterexample: with `--url` present but equal to the empty
string, Python evaluates `args.url` as falsy (`if args.url and ...`), so
a GET to `/` is delegated to the static handler and no redirect is
issued — refuting the claim that any present value, including the empty
string, triggers the redirect. -/
theorem empty_url_no_redirect :
    handle (fun _ _ => HttpResp.serve 200 []) (some []) "GET" rootPath
      = HttpResp.serve 200 []
    ∧ handle (fun _ _ => HttpResp.serve 200 []) (some []) "GET" rootPath
      ≠ HttpResp.redirect 302 (locationPrefix ++ quoteBytes []) := by
  constructor <;> decide

/-- C3 (amended): for every invocation in which `--url` is present with
a non-empty value, a GET request to `/` triggers the
redirect-with-preload behaviour (302 to `/index.html?url=...`) rather
than static file serving. -/
theorem nonempty_url_redirects (base : String → List Nat → HttpResp)
    (u : List Nat) (hu : u ≠ []) :
    handle base (some u) "GET" rootPath
      = HttpResp.redirect 302 (locationPrefix ++ quoteBytes u) := by
  simp [handle, do_GET, hu]

/-- Witness for C3 (amended) at the one-byte url `x`. -/
theorem nonempty_url_redirects_witness :
    ([120] : List Nat) ≠ []
    ∧ handle (fun _ _ => HttpResp.serve 200 []) (some [120]) "GET" rootPath
      = HttpResp.redirect 302 (locationPrefix ++ quoteBytes [120]) :=
  ⟨by decide, nonempty_url_redirects _ [120] (by decide)⟩

/-- C4: for every preload configuration and every GET request whose raw
path is not exactly `/` — sub-paths, paths with query strings, `/` with
a query string — the redirect branch is never taken and the request is
delegated to the static-file handler. -/
theorem nonroot_path_delegates (base : String → List Nat → HttpResp)
    (u : Option (List Nat)) (p : List Nat) (hp : p ≠ rootPath) :
    handle base u "GET" p = base "GET" p := by
  cases u with
  | none => simp [handle, do_GET]
  | some v => simp [handle, do_GET, hp]

/-- Witness for C4 at the spec example path `/index.html?foo=1` with a
configured preload url. -/
theorem nonroot_path_delegates_witness :
    asciiBytes "/index.html?foo=1" ≠ rootPath
    ∧ handle (fun _ _ => HttpResp.serve 200 [1]) (some [120]) "GET"
        (asciiBytes "/index.html?foo=1")
      = HttpResp.serve 200 [1] :=
  ⟨by decide,
   nonroot_path_delegates (fun _ _ => HttpResp.serve 200 [1]) (some [120])
     (asciiBytes "/index.html?foo=1") (by decide)⟩

/-- C5: when no preload url is configured (`--url` absent, `args.url` is
`None`), a GET request to any path — the root included — is delegated
unchanged to the static handler, so `/` is served by standard static
handling (e.g. a 200 with the `index.html` contents) and never by the
302 redirect; the second conjunct instantiates the root-path scenario. -/
theorem no_url_root_delegates (base : String → List Nat → HttpResp)
    (p : List Nat) :
    handle base none "GET" p = base "GET" p
    ∧ ∀ body : List Nat,
        handle (fun _ _ => HttpResp.serve 200 body) none "GET" rootPath
          = HttpResp.serve 200 body := by
  exact ⟨by simp [handle, do_GET], fun body => by simp [handle, do_GET]⟩

/-- C6: two-run noninterference of the preload configuration on
non-root requests — with the same static handler (same filesystem), any
two preload configurations produce the same response on every GET whose
path is not `/`; in particular a path the static handler answers with
404 gets 404 under either configuration. -/
theorem preload_noninterference_nonroot (base : String → List Nat → HttpResp)
    (u₁ u₂ : Option (List Nat)) (p : List Nat) (hp : p ≠ rootPath) :
    handle base u₁ "GET" p = handle base u₂ "GET" p
    ∧ ∀ body : List Nat, base "GET" p = HttpResp.serve 404 body →
        handle base u₁ "GET" p = HttpResp.serve 404 body := by
  have e1 : handle base u₁ "GET" p = base "GET" p := by
    cases u₁ <;> simp [handle, do_GET, hp]
  have e2 : handle base u₂ "GET" p = base "GET" p := by
    cases u₂ <;> simp [handle, do_GET, hp]
  exact ⟨e1.trans e2.symm, fun body hb => e1.trans hb⟩

/-- Witness for C6 at the spec scenario `GET /missing-file.xyz` → 404,
comparing the no-url run with a configured-url run. -/
theorem preload_noninterference_nonroot_witness :
    asciiBytes "/missing-file.xyz" ≠ rootPath
    ∧ handle (fun _ _ => HttpResp.serve 404 []) none "GET"
        (asciiBytes "/missing-file.xyz")
      = handle (fun _ _ => HttpResp.serve 404 []) (some [120]) "GET"
          (asciiBytes "/missing-file.xyz")
    ∧ handle (fun _ _ => HttpResp.serve 404 []) none "GET"
        (asciiBytes "/missing-file.xyz")
      = HttpResp.serve 404 [] :=
  ⟨by decide,
   (preload_noninterference_nonroot (fun _ _ => HttpResp.serve 404 []) none
     (some [120]) (asciiBytes "/missing-file.xyz") (by decide)).1,
   (preload_noninterference_nonroot (fun _ _ => HttpResp.serve 404 []) none
     (some [120]) (asciiBytes "/missing-file.xyz") (by decide)).2 [] rfl⟩

/-- C7: a bind failure at startup is fatal — the process ends with exit
status 1, the bind error message reported to the console, and the
`serving` state (the only state in which requests are handled) is never
reached. -/
theorem bind_failure_fatal (bind : Int → Except (List Nat) Unit)
    (portOpt : Option Int) (urlOpt : Option (List Nat)) (msg : List Nat)
    (h : bind (parseArgs portOpt urlOpt).port = Except.error msg) :
    runScript bind portOpt urlOpt = ProcOutcome.exited 1 msg
    ∧ ∀ (p : Int) (u : Option (List Nat)),
        runScript bind portOpt urlOpt ≠ ProcOutcome.serving p u := by
  have e : runScript bind portOpt urlOpt = ProcOutcome.exited 1 msg := by
    simp [runScript, h]
  exact ⟨e, fun p u hc => by rw [e] at hc; exact ProcOutcome.noConfusion hc⟩

/-- Witness for C7 with a bind that always fails with message byte 101. -/
theorem bind_failure_fatal_witness :
    (fun _ : Int => (Except.error [101] : Except (List Nat) Unit))
        (parseArgs none none).port = Except.error [101]
    ∧ runScript (fun _ => Except.error [101]) none none
      = ProcOutcome.exited 1 [101] :=
  ⟨rfl, (bind_failure_fatal (fun _ => Except.error [101]) none none [101] rfl).1⟩

/-- C8: with `--port` absent the parsed port is 5055 and a successful
bind leaves the server serving on 5055; with `--port n` supplied the
parsed port is `n` and a successful bind leaves the server serving on
`n`. -/
theorem port_default_and_override (bind : Int → Except (List Nat) Unit)
    (urlOpt : Option (List Nat)) (n : Int) :
    (parseArgs none urlOpt).port = 5055
    ∧ (parseArgs (some n) urlOpt).port = n
    ∧ (bind 5055 = Except.ok () →
        runScript bind none urlOpt = ProcOutcome.serving 5055 urlOpt)
    ∧ (bind n = Except.ok () →
        runScript bind (some n) urlOpt = ProcOutcome.serving n urlOpt) := by
  refine ⟨rfl, rfl, fun h => ?_, fun h => ?_⟩ <;>
    simp [runScript, parseArgs, h]

/-- Witness for C8: an always-successful bind, default run served on
5055 and an explicit `--port 7` run served on 7. -/
theorem port_default_and_override_witness :
    runScript (fun _ => Except.ok ()) none none = ProcOutcome.serving 5055 none
    ∧ runScript (fun _ => Except.ok ()) (some 7) none
      = ProcOutcome.serving 7 none :=
  ⟨(port_default_and_override (fun _ => Except.ok ()) none 7).2.2.1 rfl,
   (port_default_and_override (fun _ => Except.ok ()) none 7).2.2.2 rfl⟩

/-- C9: only GET is special-cased — a request to any path with any
method other than GET is handled entirely by the inherited base handler
and never triggers the 302 redirect, whatever the preload
configuration. -/
theorem non_get_method_inherited (base : String → List Nat → HttpResp)
    (u : Option (List Nat)) (m : String) (p : List Nat) (hm : m ≠ "GET") :
    handle base u m p = base m p := by
  simp [handle, hm]

/-- Witness for C9 at a HEAD request to `/` with a configured preload
url. -/
theorem non_get_method_inherited_witness :
    ("HEAD" : String) ≠ "GET"
    ∧ handle (fun _ _ => HttpResp.serve 200 []) (some [120]) "HEAD" rootPath
      = HttpResp.serve 200 [] :=
  ⟨by decide,
   non_get_method_inherited (fun _ _ => HttpResp.serve 200 []) (some [120])
     "HEAD" rootPath (by decide)⟩

/-- C10: the redirect decision for GET `/` with a non-empty preload url
is independent of the filesystem — any two static handlers (e.g. one
with no `index.html`, or no files at all) yield the very same 302
response with the same `Location` header. -/
theorem redirect_independent_of_filesystem
    (base₁ base₂ : String → List Nat → HttpResp) (u : List Nat)
    (hu : u ≠ []) :
    handle base₁ (some u) "GET" rootPath = handle base₂ (some u) "GET" rootPath
    ∧ handle base₁ (some u) "GET" rootPath
      = HttpResp.redirect 302 (locationPrefix ++ quoteBytes u) := by
  constructor <;> simp [handle, do_GET, hu]

/-- Witness for C10: an all-404 static handler (empty directory) against
one that would serve content — both produce the same redirect. -/
theorem redirect_independent_of_filesystem_witness :
    ([120] : List Nat) ≠ []
    ∧ handle (fun _ _ => HttpResp.serve 404 []) (some [120]) "GET" rootPath
      = HttpResp.redirect 302 (locationPrefix ++ quoteBytes [120]) :=
  ⟨by decide,
   (redirect_independent_of_filesystem (fun _ _ => HttpResp.serve 404 [])
     (fun _ _ => HttpResp.serve 200 [1]) [120] (by decide)).2⟩
